import Mathlib

/-!
Shallow embedding of the nsm session-orchestration engine
(port allocator, certificate provider, process supervisor,
reverse-proxy error handling, orchestrator setup/shutdown),
translated from the Go sources, together with proofs of the
spec's testable properties about them.

Ports are modelled as `Int` (Go `int`); the operating system is an
explicit oracle: `osBind : Int → Bool` tells whether a `net.Listen`
probe on a given port would succeed right now, and
`osEphemeral : Option Int` is the port the OS hands out for a
`net.Listen(":0")` ephemeral bind (`none` = the OS refuses).
-/

/-- `PortManager` from `internal/platform/ports.go`: the set of ports
reserved in-process (`allocatedPorts map[int]bool`), as the list of its
keys. -/
structure PortManager where
  allocatedPorts : List Int
deriving DecidableEq, Repr

/-- `pm.allocatedPorts[port] = true`: record an in-process reservation
(map insert; inserting an already-present key leaves the map unchanged). -/
def markAllocated (pm : PortManager) (port : Int) : PortManager :=
  if pm.allocatedPorts.contains port then pm else ⟨port :: pm.allocatedPorts⟩

/-- `PortManager.IsPortAvailable`: false if reserved in-process, else a
bind-and-release probe at the OS. -/
def isPortAvailable (pm : PortManager) (osBind : Int → Bool) (port : Int) : Bool :=
  if pm.allocatedPorts.contains port then false else osBind port

/-- `PortManager.FindFreePort`: ask the OS for an ephemeral port, record
it as reserved, and return it.  The OS choice is NOT checked against
`allocatedPorts`. -/
def findFreePort (pm : PortManager) (osEphemeral : Option Int) :
    Except String (Int × PortManager) :=
  match osEphemeral with
  | none => .error "find free port"
  | some port => .ok (port, markAllocated pm port)

/-- The candidate list of the nearby-port loop in `FindFreePortNear`:
`preferred+1, preferred-1, preferred+2, preferred-2, …, preferred+100,
preferred-100`. -/
def nearbyCandidates (preferred : Int) : List Int :=
  (List.range 100).flatMap
    (fun i => [preferred + (i + 1 : Nat), preferred - (i + 1 : Nat)])

/-- The nearby-port loop of `FindFreePortNear`: the first candidate that
passes `port > 1024 && port < 65535 && pm.IsPortAvailable(port)`. -/
def searchNearby (pm : PortManager) (osBind : Int → Bool) (preferred : Int) :
    Option Int :=
  (nearbyCandidates preferred).find?
    (fun port => decide (1024 < port) && decide (port < 65535)
      && isPortAvailable pm osBind port)

/-- `PortManager.FindFreePortNear`: preferred port first, then the
nearby loop, then the `FindFreePort` fallback. -/
def findFreePortNear (pm : PortManager) (osBind : Int → Bool)
    (osEphemeral : Option Int) (preferred : Int) :
    Except String (Int × PortManager) :=
  if isPortAvailable pm osBind preferred then
    .ok (preferred, markAllocated pm preferred)
  else
    match searchNearby pm osBind preferred with
    | some port => .ok (port, markAllocated pm port)
    | none => findFreePort pm osEphemeral

/-- `PortManager.ReleasePort`: drop the in-process reservation. -/
def releasePort (pm : PortManager) (port : Int) : PortManager :=
  ⟨pm.allocatedPorts.filter (fun q => q ≠ port)⟩

/-- Spec-side definition for claim C6, following the claim's words:
probe `preferred` first, then `preferred ± 1, …, ± 100` in alternating
order, returning the FIRST AVAILABLE candidate in that order (no range
condition), with the `findFreePort` fallback when none is available. -/
def claimedNearPort (pm : PortManager) (osBind : Int → Bool)
    (osEphemeral : Option Int) (preferred : Int) : Except String Int :=
  match (preferred :: nearbyCandidates preferred).find?
      (fun port => isPortAvailable pm osBind port) with
  | some port => .ok port
  | none => (findFreePort pm osEphemeral).map (fun r => r.1)

/-- Helper: a successful `find?` returns the first satisfying element:
it satisfies the predicate and everything before it fails it. -/
theorem find?_first {α : Type} (p : α → Bool) :
    ∀ (l : List α) (a : α), l.find? p = some a →
      p a = true ∧ ∃ l1 l2, l = l1 ++ a :: l2 ∧ ∀ x ∈ l1, p x = false := by
  intro l
  induction l with
  | nil => intro a h; simp [List.find?] at h
  | cons b bs ih =>
    intro a h
    cases hb : p b with
    | true =>
      rw [List.find?_cons_of_pos _ hb] at h
      cases h
      exact ⟨hb, [], bs, rfl, by intro x hx; simp at hx⟩
    | false =>
      rw [List.find?_cons_of_neg _ (by simp [hb])] at h
      obtain ⟨hpa, l1, l2, hsplit, hfail⟩ := ih a h
      refine ⟨hpa, b :: l1, l2, by simp [hsplit], ?_⟩
      intro x hx
      rcases List.mem_cons.mp hx with hx | hx
      · subst hx; exact hb
      · exact hfail x hx

/-- C5: `allocate_near(preferred)` returns `preferred` whenever
`is_available(preferred)` is true at call time. -/
theorem findFreePortNear_preferred (pm : PortManager) (osBind : Int → Bool)
    (osEphemeral : Option Int) (preferred : Int)
    (h : isPortAvailable pm osBind preferred = true) :
    findFreePortNear pm osBind osEphemeral preferred =
      .ok (preferred, markAllocated pm preferred) := by
  simp [findFreePortNear, h]

/-- C5 witness: on an empty manager with an all-permissive OS, the
preferred port 8443 is available and is returned. -/
theorem findFreePortNear_preferred_witness :
    isPortAvailable ⟨[]⟩ (fun _ => true) 8443 = true ∧
    findFreePortNear ⟨[]⟩ (fun _ => true) none 8443 =
      .ok (8443, ⟨[8443]⟩) := by
  refine ⟨by decide, ?_⟩
  have h := findFreePortNear_preferred ⟨[]⟩ (fun _ => true) none 8443 (by decide)
  simpa [markAllocated] using h

/-- C2 counterexample: with an all-permissive OS, `FindFreePortNear 8443`
reserves and returns 8443; a later `FindFreePort` for which the OS hands
out 8443 again (the reservation holds no OS-level bind, so the OS may)
returns 8443 a second time although the first reservation was never
released.  `FindFreePort` records, but never checks, the reservation set. -/
theorem findFreePort_duplicate_counterexample :
    findFreePortNear ⟨[]⟩ (fun _ => true) (some 9999) 8443 =
      .ok (8443, ⟨[8443]⟩) ∧
    findFreePort ⟨[8443]⟩ (some 8443) = .ok (8443, ⟨[8443]⟩) ∧
    (8443 : Int) ∈ (PortManager.mk [8443]).allocatedPorts :=
  ⟨rfl, rfl, by decide⟩

/-- C2 amended: an allocation that goes through an availability check
(the preferred-port branch or the nearby-search branch of
`FindFreePortNear`, i.e. not the `FindFreePort` fallback) returns a port
that was not reserved at call time, reserves it, and therefore differs
from every port still reserved by an earlier, unreleased allocation. -/
theorem findFreePortNear_no_duplicate (pm : PortManager)
    (osBind : Int → Bool) (osEphemeral : Option Int)
    (preferred port : Int) (pm' : PortManager)
    (hres : findFreePortNear pm osBind osEphemeral preferred =
      .ok (port, pm'))
    (hpath : isPortAvailable pm osBind preferred = true ∨
      searchNearby pm osBind preferred = some port) :
    port ∉ pm.allocatedPorts ∧ port ∈ pm'.allocatedPorts ∧
      ∀ q ∈ pm.allocatedPorts, port ≠ q := by
  have hav : isPortAvailable pm osBind port = true ∧ pm' = markAllocated pm port := by
    cases hp : isPortAvailable pm osBind preferred with
    | true =>
      simp [findFreePortNear, hp] at hres
      obtain ⟨h1, h2⟩ := hres
      subst h1
      exact ⟨hp, h2.symm⟩
    | false =>
      rcases hpath with hpath | hpath
      · rw [hp] at hpath; cases hpath
      · have hgood := (find?_first _ _ _ (by simpa [searchNearby] using hpath)).1
        simp only [Bool.and_eq_true] at hgood
        simp [findFreePortNear, hp, hpath] at hres
        exact ⟨hgood.2, hres.symm⟩
  obtain ⟨hav, hpm'⟩ := hav
  simp only [isPortAvailable] at hav
  have hmem : port ∉ pm.allocatedPorts := by
    intro hmem
    simp [hmem] at hav
  refine ⟨hmem, ?_, ?_⟩
  · subst hpm'
    simp [markAllocated, hmem]
  · intro q hq heq
    exact hmem (heq ▸ hq)

/-- C2 amended witness: with 3000 still reserved from an earlier
allocation, `FindFreePortNear 8443` returns 8443, which was unreserved
before and is reserved after. -/
theorem findFreePortNear_no_duplicate_witness :
    (8443 : Int) ∉ (PortManager.mk [3000]).allocatedPorts ∧
    (8443 : Int) ∈ (PortManager.mk [8443, 3000]).allocatedPorts := by
  have h := findFreePortNear_no_duplicate ⟨[3000]⟩ (fun _ => true) none
    8443 8443 ⟨[8443, 3000]⟩ rfl (Or.inl (by decide))
  exact ⟨h.1, h.2.1⟩

/-- C6 counterexample: `preferred = 1000` is busy and `1001 = preferred + 1`
is OS-bindable.  The claim's probe order (no range condition) would return
1001, but the code skips every nearby candidate `≤ 1024` regardless of
availability, exhausts the ±100 window and falls back to the OS ephemeral
choice 50000. -/
theorem findFreePortNear_order_counterexample :
    claimedNearPort ⟨[]⟩ (fun p => p == 1001) (some 50000) 1000 =
      .ok 1001 ∧
    findFreePortNear ⟨[]⟩ (fun p => p == 1001) (some 50000) 1000 =
      .ok (50000, ⟨[50000]⟩) :=
  ⟨rfl, rfl⟩

/-- C6 amended: `FindFreePortNear` returns `preferred` when it is
available; otherwise it returns the first candidate of the alternating
`preferred ± 1 … ± 100` sequence that lies strictly inside `(1024, 65535)`
AND is available (every earlier candidate failing that combined test); if
no nearby candidate passes the combined test, it falls back to the
`FindFreePort` ephemeral-OS allocation. -/
theorem findFreePortNear_characterization (pm : PortManager)
    (osBind : Int → Bool) (osEphemeral : Option Int) (preferred : Int) :
    (isPortAvailable pm osBind preferred = true →
      findFreePortNear pm osBind osEphemeral preferred =
        .ok (preferred, markAllocated pm preferred)) ∧
    (isPortAvailable pm osBind preferred = false →
      ∀ port pm', findFreePortNear pm osBind osEphemeral preferred =
          .ok (port, pm') →
        (∃ l1 l2, nearbyCandidates preferred = l1 ++ port :: l2 ∧
          (1024 < port ∧ port < 65535 ∧
            isPortAvailable pm osBind port = true) ∧
          (∀ q ∈ l1, ¬(1024 < q ∧ q < 65535 ∧
            isPortAvailable pm osBind q = true))) ∨
        ((∀ q ∈ nearbyCandidates preferred, ¬(1024 < q ∧ q < 65535 ∧
            isPortAvailable pm osBind q = true)) ∧
          osEphemeral = some port)) := by
  constructor
  · intro h
    simp [findFreePortNear, h]
  · intro hp port pm' hres
    cases hs : searchNearby pm osBind preferred with
    | some p =>
      simp [findFreePortNear, hp, hs] at hres
      obtain ⟨hpe, hpm'⟩ := hres
      subst hpe
      obtain ⟨hgood, l1, l2, hsplit, hfail⟩ :=
        find?_first _ _ _ (by simpa [searchNearby] using hs)
      left
      simp only [Bool.and_eq_true, decide_eq_true_eq] at hgood
      refine ⟨l1, l2, hsplit, ⟨hgood.1.1, hgood.1.2, hgood.2⟩, ?_⟩
      intro q hq hcontra
      have hf := hfail q hq
      simp [hcontra.1, hcontra.2.1, hcontra.2.2] at hf
    | none =>
      right
      constructor
      · intro q hq hcontra
        have hf : ∀ x ∈ nearbyCandidates preferred,
            1024 < x → x < 65535 → isPortAvailable pm osBind x = false := by
          simpa [searchNearby] using hs
        have hf' := hf q hq hcontra.1 hcontra.2.1
        simp [hcontra.2.2] at hf'
      · have hres' : findFreePort pm osEphemeral = .ok (port, pm') := by
          simpa [findFreePortNear, hp, hs] using hres
        unfold findFreePort at hres'
        cases he : osEphemeral with
        | none => rw [he] at hres'; simp at hres'
        | some v =>
          rw [he] at hres'
          simp only [Except.ok.injEq, Prod.mk.injEq] at hres'
          rw [hres'.1]

/-- C6 amended witness: with no reservations and an all-permissive OS,
the available preferred port 9000 is returned. -/
theorem findFreePortNear_characterization_witness :
    findFreePortNear ⟨[]⟩ (fun _ => true) none 9000 =
      .ok (9000, ⟨[9000]⟩) := by
  have h := (findFreePortNear_characterization ⟨[]⟩ (fun _ => true) none 9000).1
    (by decide)
  simpa [markAllocated] using h

/-- C10: every port found by the nearby-offset search lies strictly
inside `(1024, 65535)` — for any `preferred`, including one outside that
range — while the preferred port itself is returned with no range check
whenever it is available. -/
theorem nearbySearch_range (pm : PortManager) (osBind : Int → Bool)
    (osEphemeral : Option Int) (preferred : Int) :
    (∀ port, searchNearby pm osBind preferred = some port →
      1024 < port ∧ port < 65535) ∧
    (isPortAvailable pm osBind preferred = true →
      findFreePortNear pm osBind osEphemeral preferred =
        .ok (preferred, markAllocated pm preferred)) := by
  constructor
  · intro port h
    have hgood := (find?_first _ _ _ (by simpa [searchNearby] using h)).1
    simp only [Bool.and_eq_true, decide_eq_true_eq] at hgood
    exact ⟨hgood.1.1, hgood.1.2⟩
  · intro h
    simp [findFreePortNear, h]

/-- C10 witness: with 8443 reserved, the nearby search for 8443 lands on
8444, inside the range; and the out-of-range preferred port 80, being
available, is returned unchecked. -/
theorem nearbySearch_range_witness :
    (1024 < (8444 : Int) ∧ (8444 : Int) < 65535) ∧
    findFreePortNear ⟨[]⟩ (fun _ => true) none 80 = .ok (80, ⟨[80]⟩) := by
  constructor
  · exact (nearbySearch_range ⟨[8443]⟩ (fun p => p == 8444) none 8443).1
      8444 (by rfl)
  · have h := (nearbySearch_range ⟨[]⟩ (fun _ => true) none 80).2 (by decide)
    simpa [markAllocated] using h

/-!
Process Supervisor: `Runner.Stop` from `internal/project/runner.go`.

The child process's behaviour and the OS signal layer are an explicit
environment: whether a process handle exists (`cmd != nil &&
cmd.Process != nil`), whether `cmd.Wait()` completes within the
10-second grace period after the SIGTERM, and whether the SIGKILL
delivery succeeds (the process then exits).  Real time is abstracted
into the `exitsWithinGrace` outcome of the `select`.
-/

structure StopEnv where
  /-- `r.cmd != nil && r.cmd.Process != nil`: a child was started and
  assigned a PID. -/
  hasProcess : Bool
  /-- `r.cmd.Wait()` delivers on the `done` channel before the
  10-second timer fires. -/
  exitsWithinGrace : Bool
  /-- the forced `SIGKILL` (or `Process.Kill`) succeeds, so the process
  exits after the force-kill.  `Runner.Stop` ignores this outcome. -/
  killSucceeds : Bool
deriving DecidableEq, Repr

/-- What a `Runner.Stop` call did: its returned error (`none` = nil,
i.e. success) and which signals were sent along the way. -/
structure StopTrace where
  result : Option String
  termSignaled : Bool
  killSignaled : Bool
deriving DecidableEq, Repr

/-- `Runner.Stop`: nil if no process; otherwise SIGTERM the process
group, wait up to 10 seconds, and on timeout force-kill the group and
return the timeout error.  The error returned after the timeout does not
consult the outcome of the forced kill. -/
def runnerStop (e : StopEnv) : StopTrace :=
  if !e.hasProcess then ⟨none, false, false⟩
  else if e.exitsWithinGrace then ⟨none, true, false⟩
  else ⟨some "process killed after timeout", true, true⟩

/-- Spec-side definition for claim C1, following the claim's words:
success if the process exited at any point of the
graceful-wait-then-force-kill sequence (within the grace period, or
after the force-kill succeeded), an error only if the forced kill
itself failed. -/
def claimedStopResult (e : StopEnv) : Option String :=
  if !e.hasProcess then none
  else if e.exitsWithinGrace then none
  else if e.killSucceeds then none
  else some "forced kill failed"

/-- C1 counterexample: a started process that survives the grace period
and is then successfully force-killed (so it exited during the
sequence).  The claim requires success; `Runner.Stop` returns the
timeout error regardless of the kill's success. -/
theorem runnerStop_counterexample :
    claimedStopResult ⟨true, false, true⟩ = none ∧
    (runnerStop ⟨true, false, true⟩).result =
      some "process killed after timeout" :=
  ⟨rfl, rfl⟩

/-- C1 amended: `Runner.Stop` returns success iff no process was
started or the process exits within the 10-second grace period; once
the grace period lapses it force-kills (exactly once) and always
returns the `process killed after timeout` error, regardless of whether
the forced kill succeeded.  A started process is always signalled at
least once. -/
theorem runnerStop_result (e : StopEnv) :
    ((runnerStop e).result = none ↔
      (e.hasProcess = false ∨ e.exitsWithinGrace = true)) ∧
    ((runnerStop e).killSignaled = true ↔
      (e.hasProcess = true ∧ e.exitsWithinGrace = false)) ∧
    (e.hasProcess = true → (runnerStop e).termSignaled = true) := by
  cases hp : e.hasProcess <;> cases hg : e.exitsWithinGrace <;>
    simp [runnerStop, hp, hg]

/-- C1 amended witness: with a started process that exits in the grace
period, `Runner.Stop` succeeds without a force-kill; with one that does
not exit, it errors and did force-kill. -/
theorem runnerStop_result_witness :
    (runnerStop ⟨true, true, false⟩).result = none ∧
    (runnerStop ⟨true, false, false⟩).killSignaled = true ∧
    (runnerStop ⟨true, false, false⟩).termSignaled = true := by
  refine ⟨?_, ?_, ?_⟩
  · exact (runnerStop_result ⟨true, true, false⟩).1.mpr (Or.inr rfl)
  · exact (runnerStop_result ⟨true, false, false⟩).2.1.mpr ⟨rfl, rfl⟩
  · exact (runnerStop_result ⟨true, false, false⟩).2.2 rfl

/-!
Certificate Provider: `cert.Manager` (`EnsureCertificate`,
`validateCertificate`, `certificateExists`, `createCertificate`).

The certificate store directory is modelled as two path-indexed
association lists (certificate files and key files); a stored
certificate carries exactly the attributes the validation code
inspects: whether it PEM-decodes, whether it parses as X.509, its
`NotAfter` instant (an integer timestamp), its subject/SAN names, and
the identity of the private key it matches.  The external `mkcert`
tool is an oracle `mint`: it can fail, write a cert/key pair, or exit
successfully without the files appearing.
-/

structure Cert where
  pemOk : Bool
  x509Ok : Bool
  notAfter : Int
  sans : List String
  keyId : Nat
deriving DecidableEq, Repr

structure CertStore where
  certFiles : List (String × Cert)
  keyFiles : List (String × Nat)
deriving DecidableEq, Repr

inductive MintResult where
  | fail
  | wroteNothing
  | wrote (c : Cert) (kid : Nat)
deriving DecidableEq, Repr

/-- `cert.CertificateInfo`. -/
structure CertificateInfo where
  certPath : String
  keyPath : String
  domain : String
  created : Bool
deriving DecidableEq, Repr

/-- The domain normalisation at the top of `EnsureCertificate`:
empty or "localhost" becomes "localhost". -/
def normalizeDomain (domain : String) : String :=
  if domain == "" || domain == "localhost" then "localhost" else domain

/-- `Manager.certificateExists`: both files stat successfully. -/
def certificateExists (st : CertStore) (certPath keyPath : String) : Bool :=
  (List.lookup certPath st.certFiles).isSome
    && (List.lookup keyPath st.keyFiles).isSome

/-- `Manager.validateCertificate`, checks in source order: read the
certificate file, PEM-decode, X.509-parse, expiry
(`time.Now().After(NotAfter)`, i.e. strictly past), hostname coverage,
and loading cert+key as a matched pair.  `none` = valid; `some reason`
= the first failing check's reason.  (The 30-day expires-soon check
only logs a warning and does not affect the result.) -/
def validateCertificate (now : Int) (st : CertStore)
    (certPath keyPath domain : String) : Option String :=
  match List.lookup certPath st.certFiles with
  | none => some "read certificate"
  | some c =>
    if !c.pemOk then some "failed to decode PEM certificate"
    else if !c.x509Ok then some "parse certificate"
    else if c.notAfter < now then
      some ("certificate expired on " ++ toString c.notAfter)
    else if !(c.sans.contains domain) then
      some ("certificate not valid for " ++ domain)
    else
      match List.lookup keyPath st.keyFiles with
      | none => some "invalid key pair"
      | some kid => if kid != c.keyId then some "invalid key pair" else none

/-- `Manager.EnsureCertificate`: reuse the stored pair when it exists
and validates (unless `force`), otherwise invoke `mkcert` and return
the freshly written pair marked `Created`. -/
def ensureCertificate (certsDir : String) (mint : String → MintResult)
    (now : Int) (st : CertStore) (domain0 : String) (force : Bool) :
    Except String (CertificateInfo × CertStore) :=
  let domain := normalizeDomain domain0
  let certPath := certsDir ++ "/" ++ domain ++ ".pem"
  let keyPath := certsDir ++ "/" ++ domain ++ "-key.pem"
  let info : CertificateInfo := ⟨certPath, keyPath, domain, false⟩
  if !force && certificateExists st certPath keyPath
      && (validateCertificate now st certPath keyPath domain).isNone then
    .ok (info, st)
  else
    match mint domain with
    | .fail => .error "create certificate: mkcert failed"
    | .wroteNothing =>
        .error "create certificate: certificate files not found after creation"
    | .wrote c kid =>
        .ok ({ info with created := true },
          ⟨(certPath, c) :: st.certFiles, (keyPath, kid) :: st.keyFiles⟩)

/-- Association-list insert-then-lookup helper. -/
theorem lookup_cons_self {β : Type} (k : String) (v : β)
    (l : List (String × β)) : List.lookup k ((k, v) :: l) = some v := by
  simp [List.lookup]

/-- C4: `ensure_certificate(domain, force=false)` is idempotent.  If a
first call succeeds and every pair the certificate-authority tool mints
is well-formed, unexpired, covers its domain and matches its key, then
a second call with no intervening store change returns the same
cert/key paths, leaves the store untouched, and its result is not
marked freshly created. -/
theorem ensureCertificate_idempotent (certsDir : String)
    (mint : String → MintResult) (now : Int) (st : CertStore)
    (domain : String) (i1 : CertificateInfo) (st1 : CertStore)
    (hmint : ∀ d c kid, mint d = .wrote c kid →
      c.pemOk = true ∧ c.x509Ok = true ∧ ¬(c.notAfter < now) ∧
      d ∈ c.sans ∧ kid = c.keyId)
    (h1 : ensureCertificate certsDir mint now st domain false =
      .ok (i1, st1)) :
    ensureCertificate certsDir mint now st1 domain false =
      .ok ({ i1 with created := false }, st1) := by
  unfold ensureCertificate at h1 ⊢
  simp only [Bool.not_false, Bool.true_and] at h1 ⊢
  by_cases hc : (certificateExists st
        (certsDir ++ "/" ++ normalizeDomain domain ++ ".pem")
        (certsDir ++ "/" ++ normalizeDomain domain ++ "-key.pem")
      && (validateCertificate now st
        (certsDir ++ "/" ++ normalizeDomain domain ++ ".pem")
        (certsDir ++ "/" ++ normalizeDomain domain ++ "-key.pem")
        (normalizeDomain domain)).isNone) = true
  · rw [if_pos hc] at h1
    simp only [Except.ok.injEq, Prod.mk.injEq] at h1
    obtain ⟨hi, hst⟩ := h1
    subst hst
    rw [if_pos hc]
    rw [← hi]
  · rw [if_neg hc] at h1
    cases hm : mint (normalizeDomain domain) with
    | fail => rw [hm] at h1; cases h1
    | wroteNothing => rw [hm] at h1; cases h1
    | wrote c kid =>
      rw [hm] at h1
      simp only [Except.ok.injEq, Prod.mk.injEq] at h1
      obtain ⟨hi, hst⟩ := h1
      obtain ⟨hpem, hx, hexp, hsans, hkid⟩ := hmint _ _ _ hm
      have hval : validateCertificate now st1
          (certsDir ++ "/" ++ normalizeDomain domain ++ ".pem")
          (certsDir ++ "/" ++ normalizeDomain domain ++ "-key.pem")
          (normalizeDomain domain) = none := by
        subst hst
        simp [validateCertificate, lookup_cons_self, hpem, hx, hexp,
          hsans, hkid]
      have hex : certificateExists st1
          (certsDir ++ "/" ++ normalizeDomain domain ++ ".pem")
          (certsDir ++ "/" ++ normalizeDomain domain ++ "-key.pem") = true := by
        subst hst
        simp [certificateExists, lookup_cons_self]
      rw [if_pos (by rw [hval, hex]; rfl)]
      rw [← hi]

/-- A demo `mkcert` oracle for concrete runs: mints a well-formed,
unexpired pair valid for the requested domain. -/
def mintDemo : String → MintResult :=
  fun d => .wrote ⟨true, true, 1000, [d], 7⟩ 7

/-- C4 witness: after a first call on an empty store created the
localhost pair, a second call returns the same paths, unmarked. -/
theorem ensureCertificate_idempotent_witness :
    ensureCertificate "certs" mintDemo 0
        ⟨[("certs/localhost.pem", ⟨true, true, 1000, ["localhost"], 7⟩)],
         [("certs/localhost-key.pem", 7)]⟩ "localhost" false =
      .ok (⟨"certs/localhost.pem", "certs/localhost-key.pem",
            "localhost", false⟩,
        ⟨[("certs/localhost.pem", ⟨true, true, 1000, ["localhost"], 7⟩)],
         [("certs/localhost-key.pem", 7)]⟩) := by
  have hmint : ∀ d c kid, mintDemo d = .wrote c kid →
      c.pemOk = true ∧ c.x509Ok = true ∧ ¬(c.notAfter < (0 : Int)) ∧
      d ∈ c.sans ∧ kid = c.keyId := by
    intro d c kid h
    simp only [mintDemo, MintResult.wrote.injEq] at h
    obtain ⟨h1, h2⟩ := h
    subst h1
    subst h2
    exact ⟨rfl, rfl, by norm_num, by simp, rfl⟩
  exact ensureCertificate_idempotent "certs" mintDemo 0 ⟨[], []⟩ "localhost"
    ⟨"certs/localhost.pem", "certs/localhost-key.pem", "localhost", true⟩
    ⟨[("certs/localhost.pem", ⟨true, true, 1000, ["localhost"], 7⟩)],
     [("certs/localhost-key.pem", 7)]⟩ hmint rfl

/-- C7: a stored, well-formed certificate whose `NotAfter` is strictly
in the past fails validation with the expiry reason, and a subsequent
`EnsureCertificate(domain, force=false)` call regenerates: on a
successful mint it returns a record marked freshly created, and the
certificate now stored at the domain's path is the newly minted one,
not the expired one. -/
theorem expiredCertificate_regenerates (certsDir : String)
    (mint : String → MintResult) (now : Int) (st : CertStore)
    (domain keyPath : String) (c : Cert)
    (hlk : List.lookup (certsDir ++ "/" ++ normalizeDomain domain ++ ".pem")
      st.certFiles = some c)
    (hpem : c.pemOk = true) (hx : c.x509Ok = true)
    (hexp : c.notAfter < now) :
    validateCertificate now st
        (certsDir ++ "/" ++ normalizeDomain domain ++ ".pem") keyPath
        (normalizeDomain domain) =
      some ("certificate expired on " ++ toString c.notAfter) ∧
    (∀ c' kid, mint (normalizeDomain domain) = .wrote c' kid →
      ensureCertificate certsDir mint now st domain false =
        .ok (⟨certsDir ++ "/" ++ normalizeDomain domain ++ ".pem",
              certsDir ++ "/" ++ normalizeDomain domain ++ "-key.pem",
              normalizeDomain domain, true⟩,
          ⟨(certsDir ++ "/" ++ normalizeDomain domain ++ ".pem", c')
              :: st.certFiles,
            (certsDir ++ "/" ++ normalizeDomain domain ++ "-key.pem", kid)
              :: st.keyFiles⟩) ∧
      List.lookup (certsDir ++ "/" ++ normalizeDomain domain ++ ".pem")
          ((certsDir ++ "/" ++ normalizeDomain domain ++ ".pem", c')
            :: st.certFiles) = some c') := by
  have hval : ∀ kp, validateCertificate now st
      (certsDir ++ "/" ++ normalizeDomain domain ++ ".pem") kp
      (normalizeDomain domain) =
      some ("certificate expired on " ++ toString c.notAfter) := by
    intro kp
    simp [validateCertificate, hlk, hpem, hx, hexp]
  refine ⟨hval keyPath, ?_⟩
  intro c' kid hm
  refine ⟨?_, lookup_cons_self _ _ _⟩
  unfold ensureCertificate
  rw [if_neg (by simp [hval])]
  rw [hm]

/-- C7 witness: a stored pair for `dev.test` whose certificate expired
at time −5 fails validation at time 0 with the expiry reason, and
`EnsureCertificate` then mints and returns a fresh pair marked
created. -/
theorem expiredCertificate_regenerates_witness :
    validateCertificate 0
        ⟨[("certs/dev.test.pem", ⟨true, true, -5, ["dev.test"], 3⟩)],
         [("certs/dev.test-key.pem", 3)]⟩
        "certs/dev.test.pem" "certs/dev.test-key.pem" "dev.test" =
      some ("certificate expired on " ++ toString (-5 : Int)) ∧
    ensureCertificate "certs" mintDemo 0
        ⟨[("certs/dev.test.pem", ⟨true, true, -5, ["dev.test"], 3⟩)],
         [("certs/dev.test-key.pem", 3)]⟩ "dev.test" false =
      .ok (⟨"certs/dev.test.pem", "certs/dev.test-key.pem",
            "dev.test", true⟩,
        ⟨[("certs/dev.test.pem", ⟨true, true, 1000, ["dev.test"], 7⟩),
          ("certs/dev.test.pem", ⟨true, true, -5, ["dev.test"], 3⟩)],
         [("certs/dev.test-key.pem", 7),
          ("certs/dev.test-key.pem", 3)]⟩) := by
  have h := expiredCertificate_regenerates "certs" mintDemo 0
    ⟨[("certs/dev.test.pem", ⟨true, true, -5, ["dev.test"], 3⟩)],
     [("certs/dev.test-key.pem", 3)]⟩ "dev.test" "certs/dev.test-key.pem"
    ⟨true, true, -5, ["dev.test"], 3⟩ rfl rfl rfl (by decide)
  exact ⟨h.1, (h.2 ⟨true, true, 1000, ["dev.test"], 7⟩ 7 rfl).1⟩

/-!
Session Orchestrator shutdown: `App.shutdown` from `internal/app/app.go`.

The sub-components' stop/cleanup outcomes are an explicit environment:
each fallible step either succeeds (`none`) or fails with a message.
Nil-checks on the component fields become presence flags.  The outcome
records, in execution order, which teardown blocks were entered, the
collected error list, the port-manager state after the releases,
whether the port-descriptor file was removed, and the aggregate
result.
-/

structure ShutdownEnv where
  /-- `a.runner != nil`. -/
  runnerPresent : Bool
  /-- error from `a.runner.Stop()` (`none` = nil). -/
  runnerStopErr : Option String
  /-- `a.proxyServer != nil`. -/
  proxyPresent : Bool
  /-- error from `a.proxyServer.Stop(ctx)`. -/
  proxyStopErr : Option String
  /-- `a.dnsResolver != nil`. -/
  dnsPresent : Bool
  /-- error from `a.dnsResolver.Cleanup()`. -/
  dnsCleanupErr : Option String
  /-- `a.portManager != nil`. -/
  pmPresent : Bool
  /-- the `.nsm-ports.json` descriptor file exists in the project dir. -/
  portFilePresent : Bool
  /-- `os.Remove` on the descriptor file succeeds. -/
  portFileRemoveOk : Bool
deriving DecidableEq, Repr

structure ShutdownOutcome where
  /-- teardown blocks entered, in order. -/
  attempted : List String
  /-- the collected `errs` slice. -/
  errs : List String
  pm : PortManager
  /-- the descriptor file was actually removed. -/
  fileRemoved : Bool
  /-- `none` = nil return; `some` = the aggregate error. -/
  result : Option String
deriving DecidableEq, Repr

/-- `App.shutdown`: stop the development-server runner, stop the proxy,
clean up DNS, release both ports, remove the port-descriptor file — in
that order, never returning early; runner/proxy/DNS failures are
collected into `errs`; a failure to remove the descriptor file is only
logged; the return value aggregates `errs` iff it is non-empty. -/
def appShutdown (e : ShutdownEnv) (httpPort httpsPort : Int)
    (pm : PortManager) : ShutdownOutcome :=
  let att0 : List String := []
  let errs0 : List String := []
  let att1 := if e.runnerPresent then att0 ++ ["stop-runner"] else att0
  let errs1 := if e.runnerPresent then
      match e.runnerStopErr with
      | some m => errs0 ++ ["stop development server: " ++ m]
      | none => errs0
    else errs0
  let att2 := if e.proxyPresent then att1 ++ ["stop-proxy"] else att1
  let errs2 := if e.proxyPresent then
      match e.proxyStopErr with
      | some m => errs1 ++ ["stop proxy server: " ++ m]
      | none => errs1
    else errs1
  let att3 := if e.dnsPresent then att2 ++ ["cleanup-dns"] else att2
  let errs3 := if e.dnsPresent then
      match e.dnsCleanupErr with
      | some m => errs2 ++ ["cleanup DNS: " ++ m]
      | none => errs2
    else errs2
  let att4 := if e.pmPresent then att3 ++ ["release-ports"] else att3
  let pm1 := if e.pmPresent && decide (0 < httpPort) then
      releasePort pm httpPort else pm
  let pm2 := if e.pmPresent && decide (0 < httpsPort) then
      releasePort pm1 httpsPort else pm1
  let att5 := if e.portFilePresent then att4 ++ ["remove-portfile"] else att4
  let removed := e.portFilePresent && e.portFileRemoveOk
  let result := if errs3.isEmpty then none
    else some ("shutdown completed with " ++ toString errs3.length
      ++ " errors")
  ⟨att5, errs3, pm2, removed, result⟩

/-- C3 counterexample: every component stops cleanly but removing the
session port-descriptor file fails.  A teardown sub-step failed, yet
`shutdown` returns nil — the remove failure is only logged, so the
claim's "aggregate error iff at least one sub-step failed" is false. -/
theorem appShutdown_counterexample :
    appShutdown ⟨true, none, true, none, true, none, true, true, false⟩
        3000 8443 ⟨[3000, 8443]⟩ =
      ⟨["stop-runner", "stop-proxy", "cleanup-dns", "release-ports",
        "remove-portfile"], [], ⟨[]⟩, false, none⟩ :=
  rfl

/-- C3 amended: `shutdown` attempts every teardown step regardless of
earlier failures, and returns an aggregate error iff at least one of
the runner-stop, proxy-stop or DNS-cleanup steps failed, with each such
failure described in the collected list; releasing ports cannot fail,
and a failure to remove the port-descriptor file is only logged, never
part of the aggregate. -/
theorem appShutdown_aggregates (e : ShutdownEnv) (httpPort httpsPort : Int)
    (pm : PortManager)
    (hr : e.runnerPresent = true) (hp : e.proxyPresent = true)
    (hd : e.dnsPresent = true) (hm : e.pmPresent = true)
    (hf : e.portFilePresent = true) :
    (appShutdown e httpPort httpsPort pm).attempted =
      ["stop-runner", "stop-proxy", "cleanup-dns", "release-ports",
       "remove-portfile"] ∧
    ((appShutdown e httpPort httpsPort pm).result = none ↔
      e.runnerStopErr = none ∧ e.proxyStopErr = none ∧
        e.dnsCleanupErr = none) ∧
    (∀ m, e.runnerStopErr = some m →
      ("stop development server: " ++ m) ∈
        (appShutdown e httpPort httpsPort pm).errs) ∧
    (∀ m, e.proxyStopErr = some m →
      ("stop proxy server: " ++ m) ∈
        (appShutdown e httpPort httpsPort pm).errs) ∧
    (∀ m, e.dnsCleanupErr = some m →
      ("cleanup DNS: " ++ m) ∈
        (appShutdown e httpPort httpsPort pm).errs) := by
  refine ⟨?_, ?_, ?_, ?_, ?_⟩
  · simp [appShutdown, hr, hp, hd, hm, hf]
  · cases h1 : e.runnerStopErr <;> cases h2 : e.proxyStopErr <;>
      cases h3 : e.dnsCleanupErr <;>
      simp [appShutdown, hr, hp, hd, hm, hf, h1, h2, h3]
  · intro m hmm
    cases h2 : e.proxyStopErr <;> cases h3 : e.dnsCleanupErr <;>
      simp [appShutdown, hr, hp, hd, hm, hf, hmm, h2, h3]
  · intro m hmm
    cases h1 : e.runnerStopErr <;> cases h3 : e.dnsCleanupErr <;>
      simp [appShutdown, hr, hp, hd, hm, hf, hmm, h1, h3]
  · intro m hmm
    cases h1 : e.runnerStopErr <;> cases h2 : e.proxyStopErr <;>
      simp [appShutdown, hr, hp, hd, hm, hf, hmm, h1, h2]

/-- C3 amended witness: runner and DNS fail, proxy succeeds: all five
steps run, both failures are described, and the aggregate error is
returned. -/
theorem appShutdown_aggregates_witness :
    (appShutdown ⟨true, some "sigterm failed", true, none, true,
        some "hosts entry busy", true, true, true⟩ 3000 8443
        ⟨[3000, 8443]⟩).attempted =
      ["stop-runner", "stop-proxy", "cleanup-dns", "release-ports",
       "remove-portfile"] ∧
    ("stop development server: sigterm failed") ∈
      (appShutdown ⟨true, some "sigterm failed", true, none, true,
        some "hosts entry busy", true, true, true⟩ 3000 8443
        ⟨[3000, 8443]⟩).errs ∧
    ("cleanup DNS: hosts entry busy") ∈
      (appShutdown ⟨true, some "sigterm failed", true, none, true,
        some "hosts entry busy", true, true, true⟩ 3000 8443
        ⟨[3000, 8443]⟩).errs := by
  have h := appShutdown_aggregates
    ⟨true, some "sigterm failed", true, none, true,
      some "hosts entry busy", true, true, true⟩ 3000 8443
    ⟨[3000, 8443]⟩ rfl rfl rfl rfl rfl
  exact ⟨h.1, h.2.2.1 _ rfl, h.2.2.2.2 _ rfl⟩

/-!
Session Orchestrator setup pipeline: `App.runSetup` and its four steps
(`setupValidation`, `setupPorts`, `setupCertificates`, `setupDNS`) from
`internal/app/app.go`.

The session configuration is the subset of `config.Config` these steps
read or write; `World` bundles the environment oracles (tooling
presence, the OS port layer, the `mkcert` oracle, the clock).  Each
step either succeeds with the updated application state or fails with
its error message; `runSetup` executes the steps strictly in order,
stops at the first failure, and reports the failing step's name with
the wrapped error (`step <name> failed: <err>`).  Step timeouts are
real-time behaviour and are not modelled; on a failing step the
partially-updated in-struct state is discarded together with the
session.
-/

structure Config where
  httpPort : Int
  httpsPort : Int
  usePort443 : Bool
  enableHTTPS : Bool
  enableDNS : Bool
  domain : String
  projectDir : String
  dataDir : String
  certPath : String
  keyPath : String
deriving DecidableEq, Repr

structure World where
  /-- `utils.IsCommandAvailable("mkcert")`. -/
  mkcertOnPath : Bool
  /-- `utils.DirExists(cfg.ProjectDir)`. -/
  projectDirExists : Bool
  /-- the three `utils.EnsureDir` calls all succeed. -/
  ensureDirOk : Bool
  /-- OS bind probe, as for the port allocator. -/
  osBind : Int → Bool
  /-- OS ephemeral choice for the HTTP-port `FindFreePort` call. -/
  osEphemeralHTTP : Option Int
  /-- OS ephemeral choice inside the HTTPS `FindFreePortNear` call. -/
  osEphemeralHTTPS : Option Int
  /-- `PortManager.CanUsePort443()`. -/
  can443 : Bool
  /-- the `mkcert` mint oracle. -/
  mint : String → MintResult
  /-- validation time for certificates. -/
  now : Int

structure AppState where
  cfg : Config
  pm : PortManager
  store : CertStore
  httpPort : Int
  httpsPort : Int

/-- `App.setupValidation`: required tooling present, project directory
exists, session data directories created. -/
def setupValidation (w : World) (s : AppState) : Except String AppState :=
  if !w.mkcertOnPath then
    .error "mkcert not found - install with: brew install mkcert"
  else if !w.projectDirExists then
    .error ("project directory does not exist: " ++ s.cfg.projectDir)
  else if !w.ensureDirOk then
    .error "create directory"
  else
    .ok s

/-- `App.setupPorts`: resolve the HTTP port (ephemeral if unset,
availability-checked if user-specified), then the HTTPS port
(443 when clean URLs are possible, else near 8443, or the pinned
user port availability-checked with the clean-URL flag derived). -/
def setupPorts (w : World) (s : AppState) : Except String AppState :=
  match (if s.cfg.httpPort == 0 then
      match findFreePort s.pm w.osEphemeralHTTP with
      | .error e => .error ("find free HTTP port: " ++ e)
      | .ok (p, pm') => .ok (p, pm')
    else if !(isPortAvailable s.pm w.osBind s.cfg.httpPort) then
      .error ("HTTP port " ++ toString s.cfg.httpPort ++ " is not available")
    else .ok (s.cfg.httpPort, s.pm) :
      Except String (Int × PortManager)) with
  | .error e => .error e
  | .ok (hp, pm1) =>
    if s.cfg.httpsPort == 0 then
      if s.cfg.usePort443 && w.can443 then
        .ok { s with pm := pm1, httpPort := hp, httpsPort := 443 }
      else
        match findFreePortNear pm1 w.osBind w.osEphemeralHTTPS 8443 with
        | .error e => .error ("find free HTTPS port: " ++ e)
        | .ok (hps, pm2) =>
          .ok { s with
                pm := pm2,
                httpPort := hp,
                httpsPort := hps,
                cfg := { s.cfg with usePort443 := false } }
    else if !(isPortAvailable pm1 w.osBind s.cfg.httpsPort) then
      .error ("HTTPS port " ++ toString s.cfg.httpsPort
        ++ " is not available")
    else
      .ok { s with
            pm := pm1,
            httpPort := hp,
            httpsPort := s.cfg.httpsPort,
            cfg := { s.cfg with usePort443 := (s.cfg.httpsPort == 443) } }

/-- `App.setupCertificates`: skipped when HTTPS is disabled, otherwise
`EnsureCertificate(domain, false)` on the session store. -/
def setupCertificates (w : World) (s : AppState) : Except String AppState :=
  if !s.cfg.enableHTTPS then
    .ok s
  else
    match ensureCertificate (s.cfg.dataDir ++ "/certs") w.mint w.now
        s.store (if s.cfg.domain == "" then "localhost" else s.cfg.domain)
        false with
    | .error e => .error ("certificate setup: " ++ e)
    | .ok (info, st') =>
      .ok { s with
            store := st',
            cfg := { s.cfg with
                     certPath := info.certPath,
                     keyPath := info.keyPath } }

/-- `App.setupDNS`: skipped for disabled DNS, empty domain or
"localhost"; otherwise `Resolver.Setup()`/`Test()` failures are logged
as warnings only, so the step never fails. -/
def setupDNS (_w : World) (s : AppState) : Except String AppState :=
  if !s.cfg.enableDNS || s.cfg.domain == "" || s.cfg.domain == "localhost"
  then .ok s
  else .ok s

/-- The step table of `App.runSetup`, in pipeline order. -/
def setupSteps : List (String × (World → AppState → Except String AppState)) :=
  [("validate", setupValidation), ("ports", setupPorts),
   ("certs", setupCertificates), ("dns", setupDNS)]

/-- Sequential step execution of `App.runSetup`: run each step in
order, stop at the first error, reporting the failing step's name and
wrapped message; also return the names of the steps that were
executed. -/
def runSteps (w : World) :
    List (String × (World → AppState → Except String AppState)) →
    AppState → List String × Except (String × String) AppState
  | [], s => ([], .ok s)
  | (name, f) :: rest, s =>
    match f w s with
    | .error e => ([name], .error (name, "step " ++ name ++ " failed: " ++ e))
    | .ok s' =>
      let r := runSteps w rest s'
      (name :: r.1, r.2)

/-- `App.runSetup`. -/
def runSetup (w : World) (s : AppState) :
    List String × Except (String × String) AppState :=
  runSteps w setupSteps s

/-- C8: when the user-specified HTTP port is unavailable at the Ports
step (validation itself passing), the pipeline fails at "ports" with
the port-unavailable error, and neither the Certificates step nor the
DNS step is executed. -/
theorem setup_failsFast_on_unavailable_httpPort (w : World) (s : AppState)
    (h1 : w.mkcertOnPath = true) (h2 : w.projectDirExists = true)
    (h3 : w.ensureDirOk = true) (h4 : s.cfg.httpPort ≠ 0)
    (h5 : isPortAvailable s.pm w.osBind s.cfg.httpPort = false) :
    runSetup w s =
      (["validate", "ports"],
        .error ("ports", "step ports failed: "
          ++ ("HTTP port " ++ toString s.cfg.httpPort
            ++ " is not available"))) := by
  have h4' : (s.cfg.httpPort == 0) = false := by
    simp [h4]
  simp [runSetup, runSteps, setupSteps, setupValidation, setupPorts,
    h1, h2, h3, h4', h5]

/-- C8 witness: HTTP port pinned to 3000 while the OS refuses every
bind: setup stops after validate/ports with the port error. -/
theorem setup_failsFast_on_unavailable_httpPort_witness :
    runSetup
      ⟨true, true, true, fun _ => false, none, none, false, mintDemo, 0⟩
      ⟨⟨3000, 0, false, true, true, "dev.test", "proj", "data", "", ""⟩,
        ⟨[]⟩, ⟨[], []⟩, 0, 0⟩ =
      (["validate", "ports"],
        .error ("ports", "step ports failed: "
          ++ ("HTTP port " ++ toString (3000 : Int)
            ++ " is not available"))) :=
  setup_failsFast_on_unavailable_httpPort
    ⟨true, true, true, fun _ => false, none, none, false, mintDemo, 0⟩
    ⟨⟨3000, 0, false, true, true, "dev.test", "proj", "data", "", ""⟩,
      ⟨[]⟩, ⟨[], []⟩, 0, 0⟩ rfl rfl rfl (by decide) rfl

/-!
Reverse Proxy error handling: `ProxyServer.errorHandler` and
`ProxyServer.renderDevServerNotReady` from `internal/server`.

Go's `strings.Contains` is re-implemented over character lists
(`charsLead` = prefix test, `charsHas` = substring test, `strHas` on
`String`), because the error classification in `errorHandler` is
literally a substring test for "connection refused" on the forwarding
error's message — which is exactly how a refused TCP connection
surfaces in a Go `net.OpError` string.  The HTML holding page is the
template of `renderDevServerNotReady` with `fmt.Sprintf`'s `%s`/`%%`
substitutions applied (arguments, in order: project name, target URL,
project name, project type, domain, project name).
-/

def charsLead : List Char → List Char → Bool
  | [], _ => true
  | _ :: _, [] => false
  | a :: as, b :: bs => a == b && charsLead as bs

def charsHas (needle : List Char) : List Char → Bool
  | [] => charsLead needle []
  | b :: bs => charsLead needle (b :: bs) || charsHas needle bs

/-- `strings.Contains(s, pat)`. -/
def strHas (s pat : String) : Bool :=
  charsHas pat.data s.data

structure ProxyCfg where
  projectName : String
  projectType : String
  domain : String
  /-- `p.targetURL.String()`. -/
  targetURLString : String
deriving DecidableEq, Repr

/-- An HTTP response as far as these handlers shape one: status code,
Content-Type header, body. -/
structure HTTPResponse where
  status : Nat
  contentType : String
  body : String
deriving DecidableEq, Repr
def ndSeg0 : String :=
  "<!DOCTYPE html>\n<html lang=\"en\">\n<head>\n"
    ++ "    <meta charset=\"UTF-8\">\n"
    ++ "    <meta name=\"viewport\" content=\"width=device-width, initial-scale=1.0\">\n"
    ++ "    <title>NSM - Development Server Starting</title>\n"
    ++ "    <style>\n        body \x7b\n"
    ++ "            font-family: -apple-system, BlinkMacSystemFont, \x27Segoe UI\x27, system-ui, sans-serif;\n"
    ++ "            max-width: 800px;\n            margin: 0 auto;\n"
    ++ "            padding: 2rem;\n            line-height: 1.6;\n"
    ++ "            color: #374151;\n"
    ++ "            background: linear-gradient(135deg, #667eea 0%, #764ba2 100%);\n"
    ++ "            min-height: 100vh;\n            display: flex;\n"
    ++ "            align-items: center;\n"
    ++ "            justify-content: center;\n        \x7d\n"
    ++ "        .container \x7b\n            background: white;\n"
    ++ "            border-radius: 16px;\n            padding: 3rem;\n"
    ++ "            box-shadow: 0 20px 25px -5px rgba(0, 0, 0, 0.1);\n"
    ++ "            text-align: center;\n            max-width: 600px;\n"
    ++ "        \x7d\n        .logo \x7b\n            font-size: 3rem;\n"
    ++ "            margin-bottom: 1rem;\n        \x7d\n"
    ++ "        .title \x7b\n            font-size: 2rem;\n"
    ++ "            font-weight: 700;\n            color: #1f2937;\n"
    ++ "            margin-bottom: 1rem;\n        \x7d\n"
    ++ "        .subtitle \x7b\n            font-size: 1.1rem;\n"
    ++ "            color: #6b7280;\n            margin-bottom: 2rem;\n"
    ++ "        \x7d\n        .status \x7b\n"
    ++ "            background: #f3f4f6;\n"
    ++ "            border-radius: 8px;\n            padding: 1.5rem;\n"
    ++ "            margin: 2rem 0;\n        \x7d\n"
    ++ "        .spinner \x7b\n            border: 3px solid #f3f3f6;\n"
    ++ "            border-top: 3px solid #7c3aed;\n"
    ++ "            border-radius: 50%;\n            width: 40px;\n"
    ++ "            height: 40px;\n"
    ++ "            animation: spin 1s linear infinite;\n"
    ++ "            margin: 0 auto 1rem;\n        \x7d\n"
    ++ "        @keyframes spin \x7b\n"
    ++ "            0% \x7b transform: rotate(0deg); \x7d\n"
    ++ "            100% \x7b transform: rotate(360deg); \x7d\n"
    ++ "        \x7d\n        .info \x7b\n"
    ++ "            background: #eff6ff;\n"
    ++ "            border: 1px solid #dbeafe;\n"
    ++ "            border-radius: 8px;\n            padding: 1rem;\n"
    ++ "            margin: 1rem 0;\n            color: #1e40af;\n"
    ++ "        \x7d\n        .project-info \x7b\n"
    ++ "            display: grid;\n"
    ++ "            grid-template-columns: auto 1fr;\n"
    ++ "            gap: 0.5rem 1rem;\n            text-align: left;\n"
    ++ "            margin: 1.5rem 0;\n        \x7d\n"
    ++ "        .label \x7b\n            font-weight: 600;\n"
    ++ "            color: #374151;\n        \x7d\n        .value \x7b\n"
    ++ "            color: #6b7280;\n"
    ++ "            font-family: \x27SF Mono\x27, Monaco, monospace;\n"
    ++ "        \x7d\n    </style>\n</head>\n<body>\n"
    ++ "    <div class=\"container\">\n"
    ++ "        <div class=\"logo\">üöÄ</div>\n"
    ++ "        <h1 class=\"title\">NSM Development Environment</h1>\n"
    ++ "        <p class=\"subtitle\">Your development server is starting up...</p>\n"
    ++ "        \n        <div class=\"status\">\n"
    ++ "            <div class=\"spinner\"></div>\n"
    ++ "            <p><strong>Starting "

def ndSeg1 : String :=
  " project</strong></p>\n            <p>Target: <code>"

def ndSeg2 : String :=
  "</code></p>\n        </div>\n        \n"
    ++ "        <div class=\"project-info\">\n"
    ++ "            <span class=\"label\">Project:</span>\n"
    ++ "            <span class=\"value\">"

def ndSeg3 : String :=
  "</span>\n            <span class=\"label\">Type:</span>\n"
    ++ "            <span class=\"value\">"

def ndSeg4 : String :=
  "</span>\n            <span class=\"label\">Domain:</span>\n"
    ++ "            <span class=\"value\">"

def ndSeg5a : String :=
  "</span>\n        </div>\n        \n"
    ++ "        <div class=\"info\">\n"
    ++ "            <strong>‚è±Ô∏è This usually takes 10-30 seconds</strong><br>\n"
    ++ "            The page will automatically refresh once your server is ready.\n"
    ++ "        </div>\n    </div>\n    \n    <script>\n"
    ++ "        // Auto-refresh every 2 seconds\n        "

def ndSeg5b : String :=
  "\n        \n        // Add some visual feedback\n"
    ++ "        let dots = 0;\n        setInterval(() => \x7b\n"
    ++ "            const status = document.querySelector(\x27.status p\x27);\n"
    ++ "            if (status) \x7b\n"
    ++ "                dots = (dots + 1) % 4;\n"
    ++ "                status.innerHTML = \x27<strong>Starting "

def ndSeg5 : String :=
  ndSeg5a ++ "setTimeout(() => location.reload(), 2000);" ++ ndSeg5b

def ndSeg6 : String :=
  " project\x27 + \x27.\x27.repeat(dots) + \x27</strong>\x27;\n"
    ++ "            \x7d\n        \x7d, 500);\n    </script>\n</body>\n"
    ++ "</html>"
/-- The holding-page HTML of `renderDevServerNotReady` after
`fmt.Sprintf` substitution. -/
def notReadyHTML (p : ProxyCfg) : String :=
  ndSeg0 ++ p.projectName ++ ndSeg1 ++ p.targetURLString ++ ndSeg2
    ++ p.projectName ++ ndSeg3 ++ p.projectType ++ ndSeg4 ++ p.domain
    ++ ndSeg5 ++ p.projectName ++ ndSeg6

/-- `ProxyServer.renderDevServerNotReady`: HTML content type, 502, the
holding page. -/
def renderDevServerNotReady (p : ProxyCfg) : HTTPResponse :=
  ⟨502, "text/html; charset=utf-8", notReadyHTML p⟩

/-- `ProxyServer.errorHandler`: the holding page when the forwarding
error's message contains "connection refused", a plain
502 "Bad Gateway" (as `http.Error` emits it) otherwise. -/
def errorHandler (p : ProxyCfg) (errMsg : String) : HTTPResponse :=
  if strHas errMsg "connection refused" then renderDevServerNotReady p
  else ⟨502, "text/plain; charset=utf-8", "Bad Gateway\n"⟩

theorem charsLead_self_append (l r : List Char) :
    charsLead l (l ++ r) = true := by
  induction l with
  | nil => rfl
  | cons a as ih => simp [charsLead, ih]

theorem charsHas_append (pat : List Char) :
    ∀ pre post : List Char, charsHas pat (pre ++ (pat ++ post)) = true := by
  intro pre
  induction pre with
  | nil =>
    intro post
    cases pat with
    | nil => cases post <;> simp [charsHas, charsLead]
    | cons a as => simp [charsHas, charsLead, charsLead_self_append]
  | cons b bs ih =>
    intro post
    simp [charsHas, ih post]

theorem strData_append (a b : String) : (a ++ b).data = a.data ++ b.data :=
  rfl

/-- Substring containment from an explicit split of the string. -/
theorem strHas_of_split (s pre pat post : String)
    (h : s.data = pre.data ++ (pat.data ++ post.data)) :
    strHas s pat = true := by
  unfold strHas
  rw [h]
  exact charsHas_append _ _ _

/-- C9: a forwarding failure whose error message contains
"connection refused" (the signature of a refused backend connection)
is answered with the 502 HTML holding page, which contains the project
name and the 2-second auto-refresh script; a failure with any other
error message is answered with the plain 502 "Bad Gateway" response. -/
theorem errorHandler_classification (p : ProxyCfg) (errMsg : String) :
    (strHas errMsg "connection refused" = true →
      (errorHandler p errMsg).status = 502 ∧
      (errorHandler p errMsg).contentType = "text/html; charset=utf-8" ∧
      strHas (errorHandler p errMsg).body p.projectName = true ∧
      strHas (errorHandler p errMsg).body
        "setTimeout(() => location.reload(), 2000);" = true) ∧
    (strHas errMsg "connection refused" = false →
      errorHandler p errMsg =
        ⟨502, "text/plain; charset=utf-8", "Bad Gateway\n"⟩) := by
  constructor
  · intro h
    refine ⟨by simp [errorHandler, h, renderDevServerNotReady],
      by simp [errorHandler, h, renderDevServerNotReady], ?_, ?_⟩
    · have hb : (errorHandler p errMsg).body = notReadyHTML p := by
        simp [errorHandler, h, renderDevServerNotReady]
      rw [hb]
      refine strHas_of_split _ ndSeg0 _
        (ndSeg1 ++ p.targetURLString ++ ndSeg2 ++ p.projectName ++ ndSeg3
          ++ p.projectType ++ ndSeg4 ++ p.domain ++ ndSeg5
          ++ p.projectName ++ ndSeg6) ?_
      simp [notReadyHTML, strData_append, List.append_assoc]
    · have hb : (errorHandler p errMsg).body = notReadyHTML p := by
        simp [errorHandler, h, renderDevServerNotReady]
      rw [hb]
      refine strHas_of_split _
        (ndSeg0 ++ p.projectName ++ ndSeg1 ++ p.targetURLString ++ ndSeg2
          ++ p.projectName ++ ndSeg3 ++ p.projectType ++ ndSeg4
          ++ p.domain ++ ndSeg5a) _
        (ndSeg5b ++ p.projectName ++ ndSeg6) ?_
      simp [notReadyHTML, ndSeg5, strData_append, List.append_assoc]
  · intro h
    simp [errorHandler, h]

/-- C9 witness: a refused dial gets the holding page with the project
name; an "EOF" failure gets the plain 502. -/
theorem errorHandler_classification_witness :
    (errorHandler ⟨"myapp", "web", "dev.test", "http://127.0.0.1:3000"⟩
      "dial tcp 127.0.0.1:3000: connect: connection refused").status
      = 502 ∧
    strHas (errorHandler ⟨"myapp", "web", "dev.test",
        "http://127.0.0.1:3000"⟩
      "dial tcp 127.0.0.1:3000: connect: connection refused").body
      "myapp" = true ∧
    errorHandler ⟨"myapp", "web", "dev.test", "http://127.0.0.1:3000"⟩
      "EOF" = ⟨502, "text/plain; charset=utf-8", "Bad Gateway\n"⟩ := by
  have h1 := (errorHandler_classification
    ⟨"myapp", "web", "dev.test", "http://127.0.0.1:3000"⟩
    "dial tcp 127.0.0.1:3000: connect: connection refused").1 (by decide)
  have h2 := (errorHandler_classification
    ⟨"myapp", "web", "dev.test", "http://127.0.0.1:3000"⟩ "EOF").2
    (by decide)
  exact ⟨h1.1, h1.2.2.1, h2⟩
